import Mathlib

/-!
Verification of `bluepy/microbit.py`: a CLI utility that connects to a BBC
micro:bit over BLE, enables GATT service wrappers (temperature, accelerometer,
buttons), polls and prints their values, and supports a pair/unpair flow.

The embedding models:
  * the UUID builders and the 16-bit service/characteristic codes;
  * the three service-wrapper classes (lazily resolved service/characteristic
    references, `enable`, `read`), with Python byte strings as `List Nat`
    (each element a byte value) and Python exceptions as the `PyErr` error type
    of an `Except` result;
  * `main` as a function from parsed arguments and a device-behaviour oracle
    to a trace of observable events (connect, disconnect, characteristic
    reads, printed lines, waits, ...) plus a process outcome.
-/

set_option maxRecDepth 4000

/-- Uppercase hexadecimal digit for a value below 16 (mirrors `%X` formatting). -/
def hexDigit (n : Nat) : Char :=
  if n < 10 then Char.ofNat (48 + n) else Char.ofNat (55 + n)

/-- Four-digit uppercase hexadecimal rendering of a 16-bit value (`"%04X"`). -/
def hex4 (v : Nat) : String :=
  String.mk [hexDigit (v / 4096 % 16), hexDigit (v / 256 % 16),
             hexDigit (v / 16 % 16), hexDigit (v % 16)]

/-- `Nordic_UUID(val)`: inserts the value into the Nordic vendor base UUID. -/
def Nordic_UUID (val : Nat) : String :=
  "EF68" ++ hex4 val ++ "-9B35-4933-9B10-52FFA9740042"

/-- `Microbit_UUID(val)`: inserts the value into the micro:bit vendor base UUID. -/
def Microbit_UUID (val : Nat) : String :=
  "E95D" ++ hex4 val ++ "-251D-470A-A062-FA1922DFA9A8"

def ACCEL_SERVICE : Nat := 0x0753
def ACCEL_DATA : Nat := 0xCA4B
def BTN_SERVICE : Nat := 0x9882
def BTN_A_STATE : Nat := 0xDA90
def BTN_B_STATE : Nat := 0xDA91
def TEMP_SERVICE : Nat := 0x6100
def TEMP_DATA : Nat := 0x9250

/-- Python exceptions that can surface in this program.
`btle code estat` models a `btle.BTLEException` with its `code` and `estat`
fields; `notFound` models a failed service/characteristic resolution;
`notEnabled` models the `AttributeError`/`TypeError` raised when a wrapper's
unresolved (`None`) characteristic reference is used; `malformedPayload`
models `struct.error` (wrong payload length for `struct.unpack`) and the
`TypeError` of `ord` applied to a string whose length is not 1. -/
inductive PyErr where
  | btle (code : Nat) (estat : Nat)
  | notFound
  | notEnabled
  | malformedPayload
deriving DecidableEq, Repr

/-- Modelled from the spec: `btle.BTLEException.DISCONNECTED`, the error code
of the underlying BLE library's disconnect-related failures (the numeric value
is immaterial; only equality with an exception's `code` field is used). -/
def BTLEException_DISCONNECTED : Nat := 1

/-- A resolved remote GATT characteristic reference, identified by its UUID. -/
structure CharRef where
  uuid : String
deriving DecidableEq, Repr

/-- A resolved remote GATT service reference: its UUID and its characteristics. -/
structure ServiceRef where
  uuid : String
  chars : List CharRef
deriving DecidableEq, Repr

/-- The remote device's GATT database as seen through discovery. -/
structure Peripheral where
  services : List ServiceRef
deriving DecidableEq, Repr

/-- Modelled from the spec: `Peripheral.getServiceByUUID` resolves the GATT
service by UUID (first match) and fails when the UUID is absent on the
connected device. -/
def getServiceByUUID (p : Peripheral) (u : String) : Except PyErr ServiceRef :=
  match p.services.find? (fun s => s.uuid == u) with
  | some s => Except.ok s
  | none => Except.error PyErr.notFound

/-- Modelled from the spec: `Service.getCharacteristics(uuid)` returns the
service's characteristics matching the UUID. -/
def getCharacteristics (s : ServiceRef) (u : String) : List CharRef :=
  s.chars.filter (fun c => c.uuid == u)

/-- The `if self.service is None: self.service = self.periph.getServiceByUUID(...)`
pattern shared by all three wrappers' `enable`.  Returns the service reference
to use together with the number of resolution calls performed (0 when the
cached reference is reused, 1 when a lookup was issued). -/
def resolveService (cur : Option ServiceRef) (p : Peripheral) (u : String) :
    Except PyErr (ServiceRef × Nat) :=
  match cur with
  | some svc => Except.ok (svc, 0)
  | none =>
    match getServiceByUUID p u with
    | Except.ok svc => Except.ok (svc, 1)
    | Except.error e => Except.error e

/-- The `if self.data is None: self.data = self.service.getCharacteristics(u)[0]`
pattern: reuse the cached characteristic reference, or look it up (the `[0]`
indexing raises when no characteristic matches, modelled as `notFound`).
Also returns the number of resolution calls performed. -/
def resolveChar (cur : Option CharRef) (svc : ServiceRef) (u : String) :
    Except PyErr (CharRef × Nat) :=
  match cur with
  | some c => Except.ok (c, 0)
  | none =>
    match (getCharacteristics svc u).head? with
    | some c => Except.ok (c, 1)
    | none => Except.error PyErr.notFound

/-- Python 2 `ord` applied to the byte string returned by a characteristic
read: yields the byte value when the payload is exactly one byte, raises
otherwise. -/
def pyOrd (payload : List Nat) : Except PyErr Nat :=
  match payload with
  | [b] => Except.ok b
  | _ => Except.error PyErr.malformedPayload

/-- Little-endian signed 16-bit decode of two bytes (one `h` of
`struct.unpack("<hhh", ...)`). -/
def decodeS16LE (lo hi : Nat) : Int :=
  let u := lo + 256 * hi
  if u < 32768 then (u : Int) else (u : Int) - 65536

/-- `struct.unpack("<hhh", payload)`: requires exactly 6 bytes and decodes
them as three little-endian signed 16-bit integers; raises `struct.error`
(modelled `malformedPayload`) on any other length. -/
def unpack_hhh (payload : List Nat) : Except PyErr (Int × Int × Int) :=
  match payload with
  | [b0, b1, b2, b3, b4, b5] =>
    Except.ok (decodeS16LE b0 b1, decodeS16LE b2 b3, decodeS16LE b4 b5)
  | _ => Except.error PyErr.malformedPayload

/-- Left-pad a string with zero digits to the given width. -/
def pad0 (w : Nat) (s : String) : String :=
  if s.length ≥ w then s else String.mk (List.replicate (w - s.length) (Char.ofNat 48)) ++ s

/-- Python `"{:05d}".format(x)`: zero-padded to total width 5, the sign
counting toward the width. -/
def fmt05 (x : Int) : String :=
  if x < 0 then "-" ++ pad0 4 (toString x.natAbs) else pad0 5 (toString x.natAbs)

/-- A transport oracle for characteristic value reads: the `i`-th read issued
on the connection, of the characteristic with the given UUID, returns a byte
payload or raises a transport error. -/
abbrev Transport := Nat → String → Except PyErr (List Nat)

/-- `TemperatureService`: `periph` plus the lazily resolved `service` and
`data` references (both `None` on construction). -/
structure TemperatureService where
  periph : Peripheral
  service : Option ServiceRef
  data : Option CharRef
deriving DecidableEq, Repr

def TemperatureService.svcUUID : String := Microbit_UUID TEMP_SERVICE

def TemperatureService.dataUUID : String := Microbit_UUID TEMP_DATA

/-- `TemperatureService.__init__`. -/
def TemperatureService.init (periph : Peripheral) : TemperatureService :=
  { periph := periph, service := none, data := none }

/-- `TemperatureService.enable`: resolve the service then the data
characteristic, each only when still unresolved.  Returns the updated wrapper
together with the number of resolution calls issued. -/
def TemperatureService.enable (s : TemperatureService) :
    Except PyErr (TemperatureService × Nat) :=
  match resolveService s.service s.periph TemperatureService.svcUUID with
  | Except.error e => Except.error e
  | Except.ok (svc, n1) =>
    match resolveChar s.data svc TemperatureService.dataUUID with
    | Except.error e => Except.error e
    | Except.ok (d, n2) =>
      Except.ok ({ s with service := some svc, data := some d }, n1 + n2)

/-- `TemperatureService.read`: `ord(self.data.read())`.  Returns the list of
characteristic UUIDs read (the reads issued), the advanced transport read
counter, and the decoded value.  An unresolved `data` reference raises before
any read is issued. -/
def TemperatureService.read (s : TemperatureService) (tr : Transport) (idx : Nat) :
    List String × Nat × Except PyErr Nat :=
  match s.data with
  | none => ([], idx, Except.error PyErr.notEnabled)
  | some c =>
    ([c.uuid], idx + 1,
      match tr idx c.uuid with
      | Except.error e => Except.error e
      | Except.ok payload => pyOrd payload)

/-- `AcceleratorService`: same lazily resolved shape as the temperature wrapper. -/
structure AcceleratorService where
  periph : Peripheral
  service : Option ServiceRef
  data : Option CharRef
deriving DecidableEq, Repr

def AcceleratorService.svcUUID : String := Microbit_UUID ACCEL_SERVICE

def AcceleratorService.dataUUID : String := Microbit_UUID ACCEL_DATA

/-- `AcceleratorService.__init__`. -/
def AcceleratorService.init (periph : Peripheral) : AcceleratorService :=
  { periph := periph, service := none, data := none }

/-- `AcceleratorService.enable`. -/
def AcceleratorService.enable (s : AcceleratorService) :
    Except PyErr (AcceleratorService × Nat) :=
  match resolveService s.service s.periph AcceleratorService.svcUUID with
  | Except.error e => Except.error e
  | Except.ok (svc, n1) =>
    match resolveChar s.data svc AcceleratorService.dataUUID with
    | Except.error e => Except.error e
    | Except.ok (d, n2) =>
      Except.ok ({ s with service := some svc, data := some d }, n1 + n2)

/-- `AcceleratorService.read`: one characteristic read, decoded with
`struct.unpack("<hhh", accel_data)`. -/
def AcceleratorService.read (s : AcceleratorService) (tr : Transport) (idx : Nat) :
    List String × Nat × Except PyErr (Int × Int × Int) :=
  match s.data with
  | none => ([], idx, Except.error PyErr.notEnabled)
  | some c =>
    ([c.uuid], idx + 1,
      match tr idx c.uuid with
      | Except.error e => Except.error e
      | Except.ok payload => unpack_hhh payload)

/-- `ButtonsService`: one service reference and two characteristic references. -/
structure ButtonsService where
  periph : Peripheral
  service : Option ServiceRef
  dataA : Option CharRef
  dataB : Option CharRef
deriving DecidableEq, Repr

def ButtonsService.svcUUID : String := Microbit_UUID BTN_SERVICE

def ButtonsService.dataUUID_btnA : String := Microbit_UUID BTN_A_STATE

def ButtonsService.dataUUID_btnB : String := Microbit_UUID BTN_B_STATE

/-- `ButtonsService.__init__`. -/
def ButtonsService.init (periph : Peripheral) : ButtonsService :=
  { periph := periph, service := none, dataA := none, dataB := none }

/-- `ButtonsService.enable`: resolve the service, then button A's and button
B's characteristics, each only when still unresolved. -/
def ButtonsService.enable (s : ButtonsService) :
    Except PyErr (ButtonsService × Nat) :=
  match resolveService s.service s.periph ButtonsService.svcUUID with
  | Except.error e => Except.error e
  | Except.ok (svc, n1) =>
    match resolveChar s.dataA svc ButtonsService.dataUUID_btnA with
    | Except.error e => Except.error e
    | Except.ok (da, n2) =>
      match resolveChar s.dataB svc ButtonsService.dataUUID_btnB with
      | Except.error e => Except.error e
      | Except.ok (db, n3) =>
        Except.ok ({ s with service := some svc, dataA := some da, dataB := some db },
                   n1 + n2 + n3)

/-- `ButtonsService.read_btnA`: `ord(self.dataA.read())`. -/
def ButtonsService.read_btnA (s : ButtonsService) (tr : Transport) (idx : Nat) :
    List String × Nat × Except PyErr Nat :=
  match s.dataA with
  | none => ([], idx, Except.error PyErr.notEnabled)
  | some c =>
    ([c.uuid], idx + 1,
      match tr idx c.uuid with
      | Except.error e => Except.error e
      | Except.ok payload => pyOrd payload)

/-- `ButtonsService.read_btnB`: `ord(self.dataB.read())`. -/
def ButtonsService.read_btnB (s : ButtonsService) (tr : Transport) (idx : Nat) :
    List String × Nat × Except PyErr Nat :=
  match s.dataB with
  | none => ([], idx, Except.error PyErr.notEnabled)
  | some c =>
    ([c.uuid], idx + 1,
      match tr idx c.uuid with
      | Except.error e => Except.error e
      | Except.ok payload => pyOrd payload)

/-- `ButtonsService.read`: `(self.read_btnA(), self.read_btnB())` — button A is
read first; if that read raises, button B is never read. -/
def ButtonsService.read (s : ButtonsService) (tr : Transport) (idx : Nat) :
    List String × Nat × Except PyErr (Nat × Nat) :=
  let (t1, i1, r1) := ButtonsService.read_btnA s tr idx
  match r1 with
  | Except.error e => (t1, i1, Except.error e)
  | Except.ok a =>
    let (t2, i2, r2) := ButtonsService.read_btnB s tr i1
    match r2 with
    | Except.error e => (t1 ++ t2, i2, Except.error e)
    | Except.ok b => (t1 ++ t2, i2, Except.ok (a, b))

/-- The `--security` choices of the argument parser. -/
inductive Security where
  | no_pairing
  | just_works
  | passkey
  | low
  | medium
  | high
deriving DecidableEq, Repr

/-- The parsed command-line arguments of `main` (defaults as in the parser;
the float `-t` delay is modelled by an integer value — it never influences
control flow, it is only handed to the inter-poll wait). -/
structure Args where
  mac_address : String
  count : Int
  t : Int
  temperature : Bool
  accelerator : Bool
  buttons : Bool
  security : Security
  pair : Bool
  iface : Int
  debug : Bool
deriving DecidableEq, Repr

/-- Behaviour of the remote device and BLE stack during one run of `main`:
the GATT database seen by discovery, the transport oracle answering
characteristic value reads, and the outcomes of `unpair()` and `pair()`
(`none` = success, `some e` = the call raises `e`). -/
structure DeviceBehavior where
  gatt : Peripheral
  value : Transport
  unpairResult : Option PyErr
  pairResult : Option PyErr

/-- Observable events of one run of `main`, in order. -/
inductive Event where
  | connect
  | disconnect
  | unpair
  | pair
  | setSecurity (level : String)
  | enableCall (svcUuid : String)
  | readChar (uuid : String)
  | wait
  | print (line : String)
deriving DecidableEq, Repr

/-- How the process ends: `exitOk` is exit status 0 (normal return or
`sys.exit(0)`); `exitError msg` is `sys.exit(msg)` — a non-zero status with
the message printed to stderr; `raised e` is an uncaught exception — a
non-zero status. -/
inductive Outcome where
  | exitOk
  | exitError (msg : String)
  | raised (e : PyErr)
deriving DecidableEq, Repr

/-- The security-tier dispatch of `main`: `low`/`no-pairing` map to the
`"low"` level, `just-works`/`medium` to `"medium"`, and the remaining choices
(`passkey`, `high`) fall through to the unsupported-security exit (`none`). -/
def securityLevel : Security → Option String
  | Security.low => some "low"
  | Security.no_pairing => some "low"
  | Security.just_works => some "medium"
  | Security.medium => some "medium"
  | Security.passkey => none
  | Security.high => none

/-- The tail of the pairing flow after the unpair step has succeeded or been
tolerated: `p.disconnect()`, reconnect, `p.pair()`, print `Paired.`,
`sys.exit(0)`. -/
def pairFlowRest (dev : DeviceBehavior) (ev : List Event) : List Event × Outcome :=
  let ev := ev ++ [Event.disconnect, Event.connect, Event.pair]
  match dev.pairResult with
  | some e => (ev, Outcome.raised e)
  | none => (ev ++ [Event.print "Paired."], Outcome.exitOk)

/-- The `--pair` branch of `main`: connect, `p.unpair()` guarded by an
`except btle.BTLEException` clause that tolerates exactly the
`code == DISCONNECTED and estat == 6` signature (printing a notice), then
disconnect, reconnect, pair, report success and exit 0.  A non-tolerated
unpair failure propagates (and no disconnect happens on that path). -/
def pairFlow (dev : DeviceBehavior) : List Event × Outcome :=
  let ev := [Event.connect, Event.unpair]
  match dev.unpairResult with
  | none => pairFlowRest dev ev
  | some e =>
    match e with
    | PyErr.btle c st =>
      if c = BTLEException_DISCONNECTED ∧ st = 6 then
        pairFlowRest dev (ev ++ [Event.print "unpair failed: not-paired (which is OK)"])
      else (ev, Outcome.raised e)
    | _ => (ev, Outcome.raised e)

/-- One `microbit.temperature.read()` step of the poll loop body, with its
`print("Temperature: %dC" % ...)`. -/
def readTempStep (dev : DeviceBehavior) (ts : TemperatureService) (idx : Nat) :
    List Event × Nat × Except PyErr Unit :=
  let (uuids, idx2, r) := TemperatureService.read ts dev.value idx
  match r with
  | Except.error e => (uuids.map Event.readChar, idx2, Except.error e)
  | Except.ok v =>
    (uuids.map Event.readChar ++ [Event.print ("Temperature: " ++ toString v ++ "C")],
     idx2, Except.ok ())

/-- One `microbit.accelerator.read()` step of the poll loop body, with its
zero-padded `print`. -/
def readAccelStep (dev : DeviceBehavior) (acc : AcceleratorService) (idx : Nat) :
    List Event × Nat × Except PyErr Unit :=
  let (uuids, idx2, r) := AcceleratorService.read acc dev.value idx
  match r with
  | Except.error e => (uuids.map Event.readChar, idx2, Except.error e)
  | Except.ok v =>
    (uuids.map Event.readChar ++
       [Event.print ("Accelerator: x: " ++ fmt05 v.1 ++ "   y: " ++ fmt05 v.2.1 ++
                     "   z: " ++ fmt05 v.2.2)],
     idx2, Except.ok ())

/-- One `microbit.buttons.read()` step of the poll loop body, with its
`print("buttons: A: %d   B: %d" % ...)`. -/
def readButtonsStep (dev : DeviceBehavior) (bs : ButtonsService) (idx : Nat) :
    List Event × Nat × Except PyErr Unit :=
  let (uuids, idx2, r) := ButtonsService.read bs dev.value idx
  match r with
  | Except.error e => (uuids.map Event.readChar, idx2, Except.error e)
  | Except.ok v =>
    (uuids.map Event.readChar ++
       [Event.print ("buttons: A: " ++ toString v.1 ++ "   B: " ++ toString v.2)],
     idx2, Except.ok ())

/-- The body of the `while True` poll loop: read and print each requested
sensor in the fixed order temperature, accelerometer, buttons; the first
raised exception aborts the body. -/
def loopBody (args : Args) (dev : DeviceBehavior) (ts : TemperatureService)
    (acc : AcceleratorService) (bs : ButtonsService) (idx : Nat) :
    List Event × Nat × Except PyErr Unit :=
  let (e1, i1, r1) :=
    if args.temperature then readTempStep dev ts idx else ([], idx, Except.ok ())
  match r1 with
  | Except.error e => (e1, i1, Except.error e)
  | Except.ok _ =>
    let (e2, i2, r2) :=
      if args.accelerator then readAccelStep dev acc i1 else ([], i1, Except.ok ())
    match r2 with
    | Except.error e => (e1 ++ e2, i2, Except.error e)
    | Except.ok _ =>
      let (e3, i3, r3) :=
        if args.buttons then readButtonsStep dev bs i2 else ([], i2, Except.ok ())
      (e1 ++ e2 ++ e3, i3, r3)

/-- The `while True` poll loop: run the body; `if counter >= args.count:
break`; otherwise `counter += 1`, `waitForNotifications(args.t)`, repeat.
The loop terminates only through the break or an exception; `fuel` is a
structural bound on the remaining iterations.  Callers pass
`(args.count - counter).toNat`, an exact bound, so the fuel-exhausted
else-branch of the zero case (which returns like the break) is never
reached. -/
def pollLoop (args : Args) (dev : DeviceBehavior) (ts : TemperatureService)
    (acc : AcceleratorService) (bs : ButtonsService) :
    Nat → Int → Nat → List Event × Nat × Except PyErr Unit
  | 0, counter, idx =>
    let (ev, idx2, r) := loopBody args dev ts acc bs idx
    match r with
    | Except.error e => (ev, idx2, Except.error e)
    | Except.ok _ =>
      if counter ≥ args.count then (ev, idx2, Except.ok ())
      else (ev, idx2, Except.ok ())
  | fuel + 1, counter, idx =>
    let (ev, idx2, r) := loopBody args dev ts acc bs idx
    match r with
    | Except.error e => (ev, idx2, Except.error e)
    | Except.ok _ =>
      if counter ≥ args.count then (ev, idx2, Except.ok ())
      else
        let (ev2, idx3, r2) := pollLoop args dev ts acc bs fuel (counter + 1) idx2
        (ev ++ Event.wait :: ev2, idx3, r2)

/-- `if args.temperature: microbit.temperature.enable()`. -/
def enableTemperature (args : Args) (ts : TemperatureService) :
    List Event × Except PyErr TemperatureService :=
  if args.temperature then
    ([Event.enableCall TemperatureService.svcUUID],
     match TemperatureService.enable ts with
     | Except.error e => Except.error e
     | Except.ok (ts2, _) => Except.ok ts2)
  else ([], Except.ok ts)

/-- `if args.accelerator: microbit.accelerator.enable()`. -/
def enableAccelerator (args : Args) (acc : AcceleratorService) :
    List Event × Except PyErr AcceleratorService :=
  if args.accelerator then
    ([Event.enableCall AcceleratorService.svcUUID],
     match AcceleratorService.enable acc with
     | Except.error e => Except.error e
     | Except.ok (acc2, _) => Except.ok acc2)
  else ([], Except.ok acc)

/-- `if args.buttons: microbit.buttons.enable()`. -/
def enableButtons (args : Args) (bs : ButtonsService) :
    List Event × Except PyErr ButtonsService :=
  if args.buttons then
    ([Event.enableCall ButtonsService.svcUUID],
     match ButtonsService.enable bs with
     | Except.error e => Except.error e
     | Except.ok (bs2, _) => Except.ok bs2)
  else ([], Except.ok bs)

/-- The protected region of the poll flow (the `try:` block): print the
enabling notice, enable each requested wrapper (freshly constructed by
`Microbit.__init__` with unresolved references), then run the poll loop from
`counter = 1`. -/
def tryPoll (args : Args) (dev : DeviceBehavior) : List Event × Except PyErr Unit :=
  let ev0 := [Event.print "Enabling selected sensors..."]
  let (evT, rT) := enableTemperature args (TemperatureService.init dev.gatt)
  match rT with
  | Except.error e => (ev0 ++ evT, Except.error e)
  | Except.ok ts =>
    let (evA, rA) := enableAccelerator args (AcceleratorService.init dev.gatt)
    match rA with
    | Except.error e => (ev0 ++ evT ++ evA, Except.error e)
    | Except.ok acc =>
      let (evB, rB) := enableButtons args (ButtonsService.init dev.gatt)
      match rB with
      | Except.error e => (ev0 ++ evT ++ evA ++ evB, Except.error e)
      | Except.ok bs =>
        let (evL, _, rL) := pollLoop args dev ts acc bs (args.count - 1).toNat 1 0
        (ev0 ++ evT ++ evA ++ evB ++ evL, rL)

/-- The polling branch of `main`: print the connecting notice, connect
(`Microbit(...)`), print the security notice, dispatch on `--security` —
`passkey`/`high` exit with the unsupported-security message *before* the
`try` block (so no disconnect happens on that path) — then run the protected
region with `finally: microbit.disconnect()`: the disconnect event is
appended whether the loop completed or an exception escaped, and the
exception (if any) resumes propagating afterwards. -/
def pollFlow (args : Args) (dev : DeviceBehavior) : List Event × Outcome :=
  let ev0 := [Event.print ("Connecting to " ++ args.mac_address), Event.connect,
              Event.print "Setting security"]
  match securityLevel args.security with
  | none =>
    (ev0, Outcome.exitError
      "error: microbit with Passkey security mode is not currently supported in this program")
  | some lvl =>
    let (evTry, r) := tryPoll args dev
    (ev0 ++ [Event.setSecurity lvl] ++ evTry ++ [Event.disconnect],
     match r with
     | Except.ok _ => Outcome.exitOk
     | Except.error e => Outcome.raised e)

/-- `main`: validate the argument combination (`--pair` conflicts with any
sensor flag; some action must be requested), then run the pairing flow or the
polling flow. -/
def mainFlow (args : Args) (dev : DeviceBehavior) : List Event × Outcome :=
  let services_requested := args.temperature || args.accelerator || args.buttons
  if args.pair && services_requested then
    ([], Outcome.exitError "error: --pair can not be combined with other services (e.g --buttons)")
  else if !args.pair && !services_requested then
    ([], Outcome.exitError
      "no action requested (e.g --pair or --temperature/--accelerator/--buttons), aborting.")
  else if args.pair then pairFlow dev
  else pollFlow args dev

/-! Concrete fixtures: the GATT database of a well-behaved micro:bit and a
benign device behaviour. -/

def tempChar : CharRef := { uuid := TemperatureService.dataUUID }

def tempService : ServiceRef := { uuid := TemperatureService.svcUUID, chars := [tempChar] }

def accelChar : CharRef := { uuid := AcceleratorService.dataUUID }

def accelService : ServiceRef := { uuid := AcceleratorService.svcUUID, chars := [accelChar] }

def btnAChar : CharRef := { uuid := ButtonsService.dataUUID_btnA }

def btnBChar : CharRef := { uuid := ButtonsService.dataUUID_btnB }

def btnService : ServiceRef :=
  { uuid := ButtonsService.svcUUID, chars := [btnAChar, btnBChar] }

def microbitGatt : Peripheral := { services := [tempService, accelService, btnService] }

/-- A fully resolved temperature wrapper over the fixture database. -/
def tEnabledState : TemperatureService :=
  { periph := microbitGatt, service := some tempService, data := some tempChar }

/-- A fully resolved accelerometer wrapper over the fixture database. -/
def aEnabledState : AcceleratorService :=
  { periph := microbitGatt, service := some accelService, data := some accelChar }

/-- A fully resolved buttons wrapper over the fixture database. -/
def bEnabledState : ButtonsService :=
  { periph := microbitGatt, service := some btnService,
    dataA := some btnAChar, dataB := some btnBChar }

/-- A device that answers every characteristic read with the single byte 20. -/
def benignDev : DeviceBehavior :=
  { gatt := microbitGatt, value := fun _ _ => Except.ok [20],
    unpairResult := none, pairResult := none }

/-- Transport fixture answering every read with the C1 example payload. -/
def trAccelExample : Transport := fun _ _ => Except.ok [0x01, 0x00, 0xFE, 0xFF, 0x00, 0x80]

/-- Claim C1: an accelerometer `read()` issues one characteristic value read;
a 6-byte payload decodes as three little-endian signed 16-bit integers (the
decode is bounded in `[-32768, 32768)` and congruent to `lo + 256 * hi` modulo
`2 ^ 16`); the payload `01 00 FE FF 00 80` decodes to `(1, -2, -32768)`; and a
payload whose length is not 6 fails with the malformed-payload error. -/
theorem C1_accelerometer_read :
    (∀ (s : AcceleratorService) (c : CharRef) (tr : Transport) (idx : Nat)
        (b0 b1 b2 b3 b4 b5 : Nat),
      s.data = some c → tr idx c.uuid = Except.ok [b0, b1, b2, b3, b4, b5] →
      AcceleratorService.read s tr idx =
        ([c.uuid], idx + 1,
         Except.ok (decodeS16LE b0 b1, decodeS16LE b2 b3, decodeS16LE b4 b5))) ∧
    (∀ lo hi : Nat, lo ≤ 255 → hi ≤ 255 →
      -32768 ≤ decodeS16LE lo hi ∧ decodeS16LE lo hi < 32768 ∧
      decodeS16LE lo hi % 65536 = (lo : Int) + 256 * hi) ∧
    (∀ (s : AcceleratorService) (c : CharRef) (tr : Transport) (idx : Nat),
      s.data = some c → tr idx c.uuid = Except.ok [0x01, 0x00, 0xFE, 0xFF, 0x00, 0x80] →
      AcceleratorService.read s tr idx =
        ([c.uuid], idx + 1, Except.ok (1, -2, -32768))) ∧
    (∀ (s : AcceleratorService) (c : CharRef) (tr : Transport) (idx : Nat)
        (payload : List Nat),
      s.data = some c → tr idx c.uuid = Except.ok payload → payload.length ≠ 6 →
      AcceleratorService.read s tr idx =
        ([c.uuid], idx + 1, Except.error PyErr.malformedPayload)) := by
  refine ⟨?_, ?_, ?_, ?_⟩
  · intro s c tr idx b0 b1 b2 b3 b4 b5 hd htr
    simp [AcceleratorService.read, hd, htr, unpack_hhh]
  · intro lo hi hlo hhi
    unfold decodeS16LE
    dsimp only
    split <;> push_cast <;> omega
  · intro s c tr idx hd htr
    simp [AcceleratorService.read, hd, htr, unpack_hhh]
    norm_num [decodeS16LE]
  · intro s c tr idx payload hd htr hlen
    have hun : unpack_hhh payload = Except.error PyErr.malformedPayload := by
      unfold unpack_hhh
      split
      · simp_all
      · rfl
    simp [AcceleratorService.read, hd, htr, hun]

/-- Witness for C1 at the example payload over the fixture wrapper. -/
theorem C1_accelerometer_read_witness :
    AcceleratorService.read aEnabledState trAccelExample 0 =
      ([accelChar.uuid], 1, Except.ok (1, -2, -32768)) :=
  C1_accelerometer_read.2.2.1 aEnabledState accelChar trAccelExample 0 rfl rfl

/-- Transport fixture answering every read with the single byte `0x17`. -/
def trTemp23 : Transport := fun _ _ => Except.ok [0x17]

/-- Claim C2: a temperature `read()` issues one characteristic value read and
interprets the single returned byte as an unsigned 8-bit integer: for every
byte `b` in `0..255` the reading equals `b`; in particular `0x17` yields 23,
`0x00` yields 0 and `0xFF` yields 255. -/
theorem C2_temperature_read :
    (∀ (s : TemperatureService) (c : CharRef) (tr : Transport) (idx : Nat) (b : Nat),
      s.data = some c → b ≤ 255 → tr idx c.uuid = Except.ok [b] →
      TemperatureService.read s tr idx = ([c.uuid], idx + 1, Except.ok b)) ∧
    (TemperatureService.read tEnabledState trTemp23 0 =
      ([tempChar.uuid], 1, Except.ok 23)) ∧
    (TemperatureService.read tEnabledState (fun _ _ => Except.ok [0x00]) 0 =
      ([tempChar.uuid], 1, Except.ok 0)) ∧
    (TemperatureService.read tEnabledState (fun _ _ => Except.ok [0xFF]) 0 =
      ([tempChar.uuid], 1, Except.ok 255)) := by
  refine ⟨?_, rfl, rfl, rfl⟩
  intro s c tr idx b hd _hb htr
  simp [TemperatureService.read, hd, htr, pyOrd]

/-- Witness for C2 at byte `0xFF` over the fixture wrapper. -/
theorem C2_temperature_read_witness :
    TemperatureService.read tEnabledState (fun _ _ => Except.ok [255]) 0 =
      ([tempChar.uuid], 1, Except.ok 255) :=
  C2_temperature_read.1 tEnabledState tempChar (fun _ _ => Except.ok [255]) 0 255
    rfl (by decide) rfl

/-- Claim C5: on a freshly constructed wrapper (unresolved characteristic
references), every read operation fails with the not-enabled error and issues
no characteristic read at all — the unresolved state is distinct from the
resolved state. -/
theorem C5_read_before_enable :
    ∀ (p : Peripheral) (tr : Transport) (idx : Nat),
      TemperatureService.read (TemperatureService.init p) tr idx =
        ([], idx, Except.error PyErr.notEnabled) ∧
      AcceleratorService.read (AcceleratorService.init p) tr idx =
        ([], idx, Except.error PyErr.notEnabled) ∧
      ButtonsService.read_btnA (ButtonsService.init p) tr idx =
        ([], idx, Except.error PyErr.notEnabled) ∧
      ButtonsService.read_btnB (ButtonsService.init p) tr idx =
        ([], idx, Except.error PyErr.notEnabled) ∧
      ButtonsService.read (ButtonsService.init p) tr idx =
        ([], idx, Except.error PyErr.notEnabled) := by
  intro p tr idx
  refine ⟨rfl, rfl, rfl, rfl, rfl⟩

/-! Idempotence of `enable`. -/

/-- On a wrapper whose references are already resolved, `enable` is a no-op:
it returns the wrapper unchanged and performs zero resolution calls. -/
theorem temp_enable_resolved (s : TemperatureService)
    (svc : ServiceRef) (d : CharRef) (h1 : s.service = some svc)
    (h2 : s.data = some d) :
    TemperatureService.enable s = Except.ok (s, 0) := by
  cases s with
  | mk p so da =>
    cases h1
    cases h2
    rfl

/-- A successful `enable` leaves both references resolved. -/
theorem temp_enable_ok_resolved {s s2 : TemperatureService} {k : Nat}
    (h : TemperatureService.enable s = Except.ok (s2, k)) :
    ∃ svc d, s2.service = some svc ∧ s2.data = some d := by
  unfold TemperatureService.enable at h
  split at h
  · exact Except.noConfusion h
  · rename_i svc n1 heq
    split at h
    · exact Except.noConfusion h
    · rename_i d n2 heq2
      simp only [Except.ok.injEq, Prod.mk.injEq] at h
      obtain ⟨h1, h2⟩ := h
      subst h1
      exact ⟨svc, d, rfl, rfl⟩

/-- On a resolved accelerometer wrapper, `enable` is a no-op. -/
theorem accel_enable_resolved (s : AcceleratorService)
    (svc : ServiceRef) (d : CharRef) (h1 : s.service = some svc)
    (h2 : s.data = some d) :
    AcceleratorService.enable s = Except.ok (s, 0) := by
  cases s with
  | mk p so da =>
    cases h1
    cases h2
    rfl

/-- A successful accelerometer `enable` leaves both references resolved. -/
theorem accel_enable_ok_resolved {s s2 : AcceleratorService} {k : Nat}
    (h : AcceleratorService.enable s = Except.ok (s2, k)) :
    ∃ svc d, s2.service = some svc ∧ s2.data = some d := by
  unfold AcceleratorService.enable at h
  split at h
  · exact Except.noConfusion h
  · rename_i svc n1 heq
    split at h
    · exact Except.noConfusion h
    · rename_i d n2 heq2
      simp only [Except.ok.injEq, Prod.mk.injEq] at h
      obtain ⟨h1, h2⟩ := h
      subst h1
      exact ⟨svc, d, rfl, rfl⟩

/-- On a resolved buttons wrapper, `enable` is a no-op. -/
theorem buttons_enable_resolved (s : ButtonsService)
    (svc : ServiceRef) (da : CharRef) (db : CharRef) (h1 : s.service = some svc)
    (h2 : s.dataA = some da) (h3 : s.dataB = some db) :
    ButtonsService.enable s = Except.ok (s, 0) := by
  cases s with
  | mk p so a b =>
    cases h1
    cases h2
    cases h3
    rfl

/-- A successful buttons `enable` leaves all three references resolved. -/
theorem buttons_enable_ok_resolved {s s2 : ButtonsService} {k : Nat}
    (h : ButtonsService.enable s = Except.ok (s2, k)) :
    ∃ svc da db, s2.service = some svc ∧ s2.dataA = some da ∧ s2.dataB = some db := by
  unfold ButtonsService.enable at h
  split at h
  · exact Except.noConfusion h
  · rename_i svc n1 heq
    split at h
    · exact Except.noConfusion h
    · rename_i da n2 heq2
      split at h
      · exact Except.noConfusion h
      · rename_i db n3 heq3
        simp only [Except.ok.injEq, Prod.mk.injEq] at h
        obtain ⟨h1, h2⟩ := h
        subst h1
        exact ⟨svc, da, db, rfl, rfl, rfl⟩

/-- Claim C3: for each service wrapper, `enable` is idempotent — after a
successful `enable`, a second call returns the identical resolved wrapper and
performs zero additional resolution calls. -/
theorem C3_enable_idempotent :
    (∀ (s s2 : TemperatureService) (k : Nat),
      TemperatureService.enable s = Except.ok (s2, k) →
      TemperatureService.enable s2 = Except.ok (s2, 0)) ∧
    (∀ (s s2 : AcceleratorService) (k : Nat),
      AcceleratorService.enable s = Except.ok (s2, k) →
      AcceleratorService.enable s2 = Except.ok (s2, 0)) ∧
    (∀ (s s2 : ButtonsService) (k : Nat),
      ButtonsService.enable s = Except.ok (s2, k) →
      ButtonsService.enable s2 = Except.ok (s2, 0)) := by
  refine ⟨?_, ?_, ?_⟩
  · intro s s2 k h
    obtain ⟨svc, d, h1, h2⟩ := temp_enable_ok_resolved h
    exact temp_enable_resolved s2 svc d h1 h2
  · intro s s2 k h
    obtain ⟨svc, d, h1, h2⟩ := accel_enable_ok_resolved h
    exact accel_enable_resolved s2 svc d h1 h2
  · intro s s2 k h
    obtain ⟨svc, da, db, h1, h2, h3⟩ := buttons_enable_ok_resolved h
    exact buttons_enable_resolved s2 svc da db h1 h2 h3

/-- Witness for C3: a fresh temperature wrapper over the fixture database
resolves with two lookups; re-enabling the result is a zero-lookup no-op. -/
theorem C3_enable_idempotent_witness :
    TemperatureService.enable tEnabledState = Except.ok (tEnabledState, 0) :=
  C3_enable_idempotent.1 (TemperatureService.init microbitGatt) tEnabledState 2 rfl

/-- Claim C6: `--pair` combined with any sensor flag exits with a non-zero
status and a descriptive message before any connection attempt (the event
trace is empty), and so does an invocation with neither `--pair` nor any
sensor flag. -/
theorem C6_argument_validation :
    ∀ (args : Args) (dev : DeviceBehavior),
      (args.pair = true → (args.temperature || args.accelerator || args.buttons) = true →
        mainFlow args dev =
          ([], Outcome.exitError
            "error: --pair can not be combined with other services (e.g --buttons)")) ∧
      (args.pair = false → (args.temperature || args.accelerator || args.buttons) = false →
        mainFlow args dev =
          ([], Outcome.exitError
            "no action requested (e.g --pair or --temperature/--accelerator/--buttons), aborting.")) := by
  intro args dev
  constructor
  · intro h1 h2
    simp [mainFlow, h1, h2]
  · intro h1 h2
    simp [mainFlow, h1, h2]

/-- Witness for C6: `--pair --buttons` rejects on an empty trace. -/
theorem C6_argument_validation_witness :
    mainFlow
      { mac_address := "mb", count := 1, t := 1, temperature := false,
        accelerator := false, buttons := true, security := Security.no_pairing,
        pair := true, iface := 0, debug := false } benignDev =
      ([], Outcome.exitError
        "error: --pair can not be combined with other services (e.g --buttons)") :=
  (C6_argument_validation
      { mac_address := "mb", count := 1, t := 1, temperature := false,
        accelerator := false, buttons := true, security := Security.no_pairing,
        pair := true, iface := 0, debug := false } benignDev).1 rfl rfl

/-- Claim C7: in the polling flow, `--security passkey` and `--security high`
are rejected with the unsupported-security message right after connecting —
the trace shows no security level applied, no sensor enabled and no read —
while `low`/`no-pairing` map to the `"low"` tier and `just-works`/`medium`
to the `"medium"` tier (and the chosen tier is applied to the connection). -/
theorem C7_security_validation :
    (∀ (args : Args) (dev : DeviceBehavior),
      args.pair = false → (args.temperature || args.accelerator || args.buttons) = true →
      (args.security = Security.passkey ∨ args.security = Security.high) →
      mainFlow args dev =
        ([Event.print ("Connecting to " ++ args.mac_address), Event.connect,
          Event.print "Setting security"],
         Outcome.exitError
           "error: microbit with Passkey security mode is not currently supported in this program")) ∧
    (∀ (args : Args) (dev : DeviceBehavior) (lvl : String),
      args.pair = false → (args.temperature || args.accelerator || args.buttons) = true →
      securityLevel args.security = some lvl →
      Event.setSecurity lvl ∈ (mainFlow args dev).1) ∧
    securityLevel Security.low = some "low" ∧
    securityLevel Security.no_pairing = some "low" ∧
    securityLevel Security.just_works = some "medium" ∧
    securityLevel Security.medium = some "medium" := by
  refine ⟨?_, ?_, rfl, rfl, rfl, rfl⟩
  · intro args dev h1 h2 h3
    have hsec : securityLevel args.security = none := by
      rcases h3 with h | h <;> rw [h] <;> rfl
    simp [mainFlow, h1, h2, pollFlow, hsec]
  · intro args dev lvl h1 h2 hsec
    simp [mainFlow, h1, h2, pollFlow, hsec]

/-- Witness for C7: `--security high --temperature` rejects after connecting,
before applying security or enabling a sensor. -/
theorem C7_security_validation_witness :
    mainFlow
      { mac_address := "mb", count := 1, t := 1, temperature := true,
        accelerator := false, buttons := false, security := Security.high,
        pair := false, iface := 0, debug := false } benignDev =
      ([Event.print ("Connecting to " ++ "mb"), Event.connect,
        Event.print "Setting security"],
       Outcome.exitError
         "error: microbit with Passkey security mode is not currently supported in this program") :=
  C7_security_validation.1
    { mac_address := "mb", count := 1, t := 1, temperature := true,
      accelerator := false, buttons := false, security := Security.high,
      pair := false, iface := 0, debug := false } benignDev rfl rfl (Or.inr rfl)

/-- Arguments selecting the pairing flow. -/
def pairArgs : Args :=
  { mac_address := "mb", count := 1, t := 1, temperature := false,
    accelerator := false, buttons := false, security := Security.no_pairing,
    pair := true, iface := 0, debug := false }

/-- Claim C8: in the pairing flow the unpair failure is tolerated exactly for
the `code = DISCONNECTED, estat = 6` signature (the flow then disconnects,
reconnects, pairs, reports success and exits 0 — as it also does when unpair
succeeds); any other unpair failure propagates immediately and is fatal. -/
theorem C8_pair_flow :
    (∀ dev : DeviceBehavior,
      dev.unpairResult = some (PyErr.btle BTLEException_DISCONNECTED 6) →
      dev.pairResult = none →
      mainFlow pairArgs dev =
        ([Event.connect, Event.unpair,
          Event.print "unpair failed: not-paired (which is OK)",
          Event.disconnect, Event.connect, Event.pair, Event.print "Paired."],
         Outcome.exitOk)) ∧
    (∀ dev : DeviceBehavior,
      dev.unpairResult = none → dev.pairResult = none →
      mainFlow pairArgs dev =
        ([Event.connect, Event.unpair, Event.disconnect, Event.connect,
          Event.pair, Event.print "Paired."],
         Outcome.exitOk)) ∧
    (∀ (dev : DeviceBehavior) (e : PyErr),
      dev.unpairResult = some e →
      (∀ c st, e = PyErr.btle c st → ¬(c = BTLEException_DISCONNECTED ∧ st = 6)) →
      mainFlow pairArgs dev = ([Event.connect, Event.unpair], Outcome.raised e)) := by
  refine ⟨?_, ?_, ?_⟩
  · intro dev hu hp
    simp [mainFlow, pairArgs, pairFlow, hu, pairFlowRest, hp]
  · intro dev hu hp
    simp [mainFlow, pairArgs, pairFlow, hu, pairFlowRest, hp]
  · intro dev e hu hsig
    have hmain : mainFlow pairArgs dev = pairFlow dev := by
      simp [mainFlow, pairArgs]
    rw [hmain]
    unfold pairFlow
    rw [hu]
    cases e with
    | btle c st =>
      have : ¬(c = BTLEException_DISCONNECTED ∧ st = 6) := hsig c st rfl
      simp [this]
    | notFound => rfl
    | notEnabled => rfl
    | malformedPayload => rfl

/-- Witness for C8: a device whose unpair fails with the tolerated signature
still completes the pairing flow and exits 0. -/
theorem C8_pair_flow_witness :
    mainFlow pairArgs
      { gatt := microbitGatt, value := fun _ _ => Except.ok [20],
        unpairResult := some (PyErr.btle BTLEException_DISCONNECTED 6),
        pairResult := none } =
      ([Event.connect, Event.unpair,
        Event.print "unpair failed: not-paired (which is OK)",
        Event.disconnect, Event.connect, Event.pair, Event.print "Paired."],
       Outcome.exitOk) :=
  C8_pair_flow.1
    { gatt := microbitGatt, value := fun _ _ => Except.ok [20],
      unpairResult := some (PyErr.btle BTLEException_DISCONNECTED 6),
      pairResult := none } rfl rfl

/-- Arguments of the C9 end-to-end scenario: `-n 2 -t 0 --temperature`. -/
def c9Args : Args :=
  { mac_address := "mb", count := 2, t := 0, temperature := true,
    accelerator := false, buttons := false, security := Security.no_pairing,
    pair := false, iface := 0, debug := false }

/-- Claim C9: polling with `-n 2 -t 0 --temperature` a device whose
temperature characteristic returns byte 20 on both reads prints exactly two
`Temperature: 20C` lines, issues exactly two characteristic reads, and
disconnects exactly once — as the final event, after the loop ends — with
exit status 0. -/
theorem C9_end_to_end :
    (mainFlow c9Args benignDev).1.count (Event.print "Temperature: 20C") = 2 ∧
    (mainFlow c9Args benignDev).1.count (Event.readChar tempChar.uuid) = 2 ∧
    (mainFlow c9Args benignDev).1.count Event.disconnect = 1 ∧
    (mainFlow c9Args benignDev).1.getLast? = some Event.disconnect ∧
    (mainFlow c9Args benignDev).2 = Outcome.exitOk := by
  decide

/-- Arguments of the C4 counterexample: polling with `--security high`. -/
def c4Args : Args :=
  { mac_address := "mb", count := 1, t := 1, temperature := true,
    accelerator := false, buttons := false, security := Security.high,
    pair := false, iface := 0, debug := false }

/-- Counterexample to claim C4 as stated: with `--security high` the polling
flow establishes the connection (one connect event) and then exits through
the unsupported-security `sys.exit`, which happens after connecting but
before the `try`/`finally` block — so the connection is never released (zero
disconnect events), contradicting "disconnect is invoked exactly once on
every exit path after the connection is established". -/
theorem C4_counterexample :
    (mainFlow c4Args benignDev).1.count Event.connect = 1 ∧
    (mainFlow c4Args benignDev).1.count Event.disconnect = 0 ∧
    (mainFlow c4Args benignDev).2 =
      Outcome.exitError
        "error: microbit with Passkey security mode is not currently supported in this program" := by
  decide

/-- Events that the protected `try` region can emit (reads, prints, waits,
enable calls) — in particular never a connect or disconnect. -/
def loopEvent : Event → Bool
  | Event.readChar _ => true
  | Event.print _ => true
  | Event.wait => true
  | Event.enableCall _ => true
  | _ => false

/-- Mapped read events are loop events. -/
theorem loopEvent_of_mem_readEvents (uuids : List String) (e : Event)
    (he : e ∈ uuids.map Event.readChar) : loopEvent e = true := by
  simp only [List.mem_map] at he
  obtain ⟨u, _, rfl⟩ := he
  rfl

/-- Every event emitted by a temperature read step is a loop event. -/
theorem readTempStep_loopEvents (dev : DeviceBehavior) (ts : TemperatureService)
    (idx : Nat) : ∀ e ∈ (readTempStep dev ts idx).1, loopEvent e = true := by
  intro e he
  unfold readTempStep at he
  split at he
  split at he
  · dsimp only at he
    exact loopEvent_of_mem_readEvents _ _ he
  · dsimp only at he
    rcases List.mem_append.mp he with h | h
    · exact loopEvent_of_mem_readEvents _ _ h
    · simp only [List.mem_singleton] at h
      subst h
      rfl

/-- Every event emitted by an accelerometer read step is a loop event. -/
theorem readAccelStep_loopEvents (dev : DeviceBehavior) (acc : AcceleratorService)
    (idx : Nat) : ∀ e ∈ (readAccelStep dev acc idx).1, loopEvent e = true := by
  intro e he
  unfold readAccelStep at he
  split at he
  split at he
  · dsimp only at he
    exact loopEvent_of_mem_readEvents _ _ he
  · dsimp only at he
    rcases List.mem_append.mp he with h | h
    · exact loopEvent_of_mem_readEvents _ _ h
    · simp only [List.mem_singleton] at h
      subst h
      rfl

/-- Every event emitted by a buttons read step is a loop event. -/
theorem readButtonsStep_loopEvents (dev : DeviceBehavior) (bs : ButtonsService)
    (idx : Nat) : ∀ e ∈ (readButtonsStep dev bs idx).1, loopEvent e = true := by
  intro e he
  unfold readButtonsStep at he
  split at he
  split at he
  · dsimp only at he
    exact loopEvent_of_mem_readEvents _ _ he
  · dsimp only at he
    rcases List.mem_append.mp he with h | h
    · exact loopEvent_of_mem_readEvents _ _ h
    · simp only [List.mem_singleton] at h
      subst h
      rfl

/-- Events of an optionally executed read step are loop events. -/
theorem stepIf_loopEvents (b : Bool) (s : List Event × Nat × Except PyErr Unit)
    (hs : ∀ e ∈ s.1, loopEvent e = true) (idx : Nat) :
    ∀ e ∈ (if b then s else ([], idx, Except.ok ())).1, loopEvent e = true := by
  split
  · exact hs
  · intro e he
    simp at he

/-- Every event emitted by the poll-loop body is a loop event. -/
theorem loopBody_loopEvents (args : Args) (dev : DeviceBehavior)
    (ts : TemperatureService) (acc : AcceleratorService) (bs : ButtonsService)
    (idx : Nat) : ∀ e ∈ (loopBody args dev ts acc bs idx).1, loopEvent e = true := by
  intro e he
  unfold loopBody at he
  split at he
  rename_i e1 i1 r1 h1
  have he1 : ∀ x ∈ e1, loopEvent x = true := by
    intro x hx
    have hstep := stepIf_loopEvents args.temperature (readTempStep dev ts idx)
      (readTempStep_loopEvents dev ts idx) idx
    rw [h1] at hstep
    exact hstep x hx
  split at he
  · exact he1 e he
  · split at he
    rename_i e2 i2 r2 h2
    have he2 : ∀ x ∈ e2, loopEvent x = true := by
      intro x hx
      have hstep := stepIf_loopEvents args.accelerator (readAccelStep dev acc i1)
        (readAccelStep_loopEvents dev acc i1) i1
      rw [h2] at hstep
      exact hstep x hx
    split at he
    · dsimp only at he
      rcases List.mem_append.mp he with h | h
      · exact he1 e h
      · exact he2 e h
    · split at he
      rename_i e3 i3 r3 h3
      have he3 : ∀ x ∈ e3, loopEvent x = true := by
        intro x hx
        have hstep := stepIf_loopEvents args.buttons (readButtonsStep dev bs i2)
          (readButtonsStep_loopEvents dev bs i2) i2
        rw [h3] at hstep
        exact hstep x hx
      dsimp only at he
      rcases List.mem_append.mp he with h | h
      · rcases List.mem_append.mp h with h4 | h4
        · exact he1 e h4
        · exact he2 e h4
      · exact he3 e h

/-- Every event emitted by the poll loop is a loop event. -/
theorem pollLoop_loopEvents (args : Args) (dev : DeviceBehavior)
    (ts : TemperatureService) (acc : AcceleratorService) (bs : ButtonsService) :
    ∀ (fuel : Nat) (counter : Int) (idx : Nat),
      ∀ e ∈ (pollLoop args dev ts acc bs fuel counter idx).1, loopEvent e = true := by
  intro fuel
  induction fuel with
  | zero =>
    intro counter idx e he
    unfold pollLoop at he
    split at he
    rename_i ev idx2 r hb
    have hev : ∀ x ∈ ev, loopEvent x = true := by
      intro x hx
      have := loopBody_loopEvents args dev ts acc bs idx
      rw [hb] at this
      exact this x hx
    split at he
    · exact hev e he
    · split at he <;> exact hev e he
  | succ fuel ih =>
    intro counter idx e he
    unfold pollLoop at he
    split at he
    rename_i ev idx2 r hb
    have hev : ∀ x ∈ ev, loopEvent x = true := by
      intro x hx
      have := loopBody_loopEvents args dev ts acc bs idx
      rw [hb] at this
      exact this x hx
    split at he
    · exact hev e he
    · split at he
      · exact hev e he
      · split at he
        rename_i ev2 idx3 r2 hrec
        dsimp only at he
        rcases List.mem_append.mp he with h | h
        · exact hev e h
        · rcases List.mem_cons.mp h with h2 | h2
          · subst h2
            rfl
          · have := ih (counter + 1) idx2
            rw [hrec] at this
            exact this e h2

/-- Every event emitted by an optional sensor-enable step is a loop event. -/
theorem enableTemperature_loopEvents (args : Args) (ts : TemperatureService) :
    ∀ e ∈ (enableTemperature args ts).1, loopEvent e = true := by
  intro e he
  unfold enableTemperature at he
  split at he
  · dsimp only at he
    simp only [List.mem_singleton] at he
    subst he
    rfl
  · simp at he

/-- Every event emitted by an optional accelerometer-enable step is a loop event. -/
theorem enableAccelerator_loopEvents (args : Args) (acc : AcceleratorService) :
    ∀ e ∈ (enableAccelerator args acc).1, loopEvent e = true := by
  intro e he
  unfold enableAccelerator at he
  split at he
  · dsimp only at he
    simp only [List.mem_singleton] at he
    subst he
    rfl
  · simp at he

/-- Every event emitted by an optional buttons-enable step is a loop event. -/
theorem enableButtons_loopEvents (args : Args) (bs : ButtonsService) :
    ∀ e ∈ (enableButtons args bs).1, loopEvent e = true := by
  intro e he
  unfold enableButtons at he
  split at he
  · dsimp only at he
    simp only [List.mem_singleton] at he
    subst he
    rfl
  · simp at he

/-- Every event emitted inside the protected `try` region is a loop event —
in particular the region never emits a disconnect. -/
theorem tryPoll_loopEvents (args : Args) (dev : DeviceBehavior) :
    ∀ e ∈ (tryPoll args dev).1, loopEvent e = true := by
  intro e he
  unfold tryPoll at he
  split at he
  rename_i evT rT hT
  have hevT : ∀ x ∈ evT, loopEvent x = true := by
    intro x hx
    have := enableTemperature_loopEvents args (TemperatureService.init dev.gatt)
    rw [hT] at this
    exact this x hx
  split at he
  · dsimp only at he
    rcases List.mem_append.mp he with h | h
    · simp only [List.mem_singleton] at h
      subst h
      rfl
    · exact hevT e h
  · rename_i ts0
    split at he
    rename_i evA rA hA
    have hevA : ∀ x ∈ evA, loopEvent x = true := by
      intro x hx
      have := enableAccelerator_loopEvents args (AcceleratorService.init dev.gatt)
      rw [hA] at this
      exact this x hx
    split at he
    · dsimp only at he
      rcases List.mem_append.mp he with h | h
      · rcases List.mem_append.mp h with h2 | h2
        · simp only [List.mem_singleton] at h2
          subst h2
          rfl
        · exact hevT e h2
      · exact hevA e h
    · rename_i acc0
      split at he
      rename_i evB rB hB
      have hevB : ∀ x ∈ evB, loopEvent x = true := by
        intro x hx
        have := enableButtons_loopEvents args (ButtonsService.init dev.gatt)
        rw [hB] at this
        exact this x hx
      split at he
      · dsimp only at he
        rcases List.mem_append.mp he with h | h
        · rcases List.mem_append.mp h with h2 | h2
          · rcases List.mem_append.mp h2 with h3 | h3
            · simp only [List.mem_singleton] at h3
              subst h3
              rfl
            · exact hevT e h3
          · exact hevA e h2
        · exact hevB e h
      · rename_i bs0
        split at he
        rename_i evL idxL rL hL
        dsimp only at he
        rcases List.mem_append.mp he with h | h
        · rcases List.mem_append.mp h with h2 | h2
          · rcases List.mem_append.mp h2 with h3 | h3
            · rcases List.mem_append.mp h3 with h4 | h4
              · simp only [List.mem_singleton] at h4
                subst h4
                rfl
              · exact hevT e h4
            · exact hevA e h3
          · exact hevB e h2
        · have := pollLoop_loopEvents args dev ts0 acc0 bs0 (args.count - 1).toNat 1 0
          rw [hL] at this
          exact this e h

/-- Claim C4 (amended): in the polling flow, once `--security` maps to a
supported tier — so control reaches the `try`/`finally` block — disconnect is
invoked exactly once on every exit path: whether the loop completes or any
exception escapes from enabling or a mid-loop read (the `--security
passkey`/`high` rejection path, which exits after connecting but before the
`try` block, releases nothing; see the counterexample). -/
theorem C4_disconnect_exactly_once :
    ∀ (args : Args) (dev : DeviceBehavior),
      args.pair = false →
      (args.temperature || args.accelerator || args.buttons) = true →
      (securityLevel args.security).isSome = true →
      (mainFlow args dev).1.count Event.disconnect = 1 := by
  intro args dev h1 h2 h3
  obtain ⟨lvl, hl⟩ := Option.isSome_iff_exists.mp h3
  have hm : mainFlow args dev = pollFlow args dev := by
    simp [mainFlow, h1, h2]
  rw [hm]
  unfold pollFlow
  rw [hl]
  rcases ht : tryPoll args dev with ⟨evTry, r⟩
  have h0 : evTry.count Event.disconnect = 0 := by
    rw [List.count_eq_zero]
    intro hmem
    have := tryPoll_loopEvents args dev Event.disconnect (by rw [ht]; exact hmem)
    simp [loopEvent] at this
  dsimp only
  simp [List.count_append, List.count_cons, h0]

/-- Witness for the amended C4: a supported-security polling run disconnects
exactly once. -/
theorem C4_disconnect_exactly_once_witness :
    (mainFlow
      { mac_address := "mb", count := 1, t := 1, temperature := true,
        accelerator := false, buttons := false, security := Security.low,
        pair := false, iface := 0, debug := false } benignDev).1.count
        Event.disconnect = 1 :=
  C4_disconnect_exactly_once
    { mac_address := "mb", count := 1, t := 1, temperature := true,
      accelerator := false, buttons := false, security := Security.low,
      pair := false, iface := 0, debug := false } benignDev rfl rfl rfl

/-- Predicate singling out characteristic-read events in a trace. -/
def isReadEvent : Event → Bool
  | Event.readChar _ => true
  | _ => false

/-- With only the temperature sensor requested and a successful 1-byte read,
the loop body emits exactly one read event and one print, and succeeds. -/
theorem loopBody_temp_only (args : Args) (dev : DeviceBehavior)
    (ts : TemperatureService) (acc : AcceleratorService) (bs : ButtonsService)
    (c : CharRef) (b : Nat) (idx : Nat)
    (hT : args.temperature = true) (hA : args.accelerator = false)
    (hB : args.buttons = false) (hts : ts.data = some c)
    (hv : dev.value idx c.uuid = Except.ok [b]) :
    loopBody args dev ts acc bs idx =
      ([Event.readChar c.uuid, Event.print ("Temperature: " ++ toString b ++ "C")],
       idx + 1, Except.ok ()) := by
  unfold loopBody
  rw [hT, hA, hB]
  simp [readTempStep, TemperatureService.read, hts, hv, pyOrd]

/-- Counting lemma for the poll loop with only the temperature sensor
requested and all reads succeeding: with exact fuel, the loop performs
`fuel + 1` body executions (one read event each) and `fuel` waits, and
completes without an exception. -/
theorem pollLoop_temp_counts (args : Args) (dev : DeviceBehavior)
    (ts : TemperatureService) (acc : AcceleratorService) (bs : ButtonsService)
    (c : CharRef)
    (hT : args.temperature = true) (hA : args.accelerator = false)
    (hB : args.buttons = false) (hts : ts.data = some c)
    (hv : ∀ i, ∃ b, dev.value i c.uuid = Except.ok [b]) :
    ∀ (fuel : Nat) (counter : Int) (idx : Nat),
      fuel = (args.count - counter).toNat →
      (pollLoop args dev ts acc bs fuel counter idx).1.countP isReadEvent = fuel + 1 ∧
      (pollLoop args dev ts acc bs fuel counter idx).1.count Event.wait = fuel ∧
      (pollLoop args dev ts acc bs fuel counter idx).2.2 = Except.ok () := by
  intro fuel
  induction fuel with
  | zero =>
    intro counter idx hfuel
    obtain ⟨b, hb⟩ := hv idx
    have hge : counter ≥ args.count := by omega
    unfold pollLoop
    rw [loopBody_temp_only args dev ts acc bs c b idx hT hA hB hts hb]
    simp [hge, isReadEvent]
  | succ fuel ih =>
    intro counter idx hfuel
    obtain ⟨b, hb⟩ := hv idx
    have hlt : ¬counter ≥ args.count := by omega
    obtain ⟨ihr, ihw, ihk⟩ := ih (counter + 1) (idx + 1) (by omega)
    unfold pollLoop
    rw [loopBody_temp_only args dev ts acc bs c b idx hT hA hB hts hb]
    rcases hrec : pollLoop args dev ts acc bs fuel (counter + 1) (idx + 1) with
      ⟨ev2, idx3, r2⟩
    rw [hrec] at ihr ihw ihk
    dsimp only at ihr ihw ihk
    simp [hlt, hrec, isReadEvent, List.countP_cons, List.count_cons, ihr, ihw, ihk]

/-- Arguments of the C10 scenario: temperature-only polling with `-n n`. -/
def c10Args (n : Int) : Args :=
  { mac_address := "mb", count := n, t := 0, temperature := true,
    accelerator := false, buttons := false, security := Security.no_pairing,
    pair := false, iface := 0, debug := false }

/-- Device of the C10 scenario: a well-behaved micro:bit with an arbitrary
transport oracle. -/
def c10Dev (val : Transport) : DeviceBehavior :=
  { gatt := microbitGatt, value := val, unpairResult := none, pairResult := none }

/-- Claim C10: for every integer `-n` value, when all reads succeed the poll
loop body executes exactly `max 1 n` times (one characteristic read per
iteration with only the temperature sensor requested — so `n = 0` or negative
still produces one reading) and the inter-iteration wait executes exactly
`max 1 n - 1` times, never after the final iteration. -/
theorem C10_loop_iteration_counts :
    ∀ (n : Int) (val : Transport),
      (∀ i u, ∃ b, val i u = Except.ok [b]) →
      (mainFlow (c10Args n) (c10Dev val)).1.countP isReadEvent = (max 1 n).toNat ∧
      (mainFlow (c10Args n) (c10Dev val)).1.count Event.wait = (max 1 n).toNat - 1 := by
  intro n val hval
  rcases hL : pollLoop (c10Args n) (c10Dev val) tEnabledState
      (AcceleratorService.init microbitGatt) (ButtonsService.init microbitGatt)
      ((c10Args n).count - 1).toNat 1 0 with ⟨evL, idxL, rL⟩
  obtain ⟨hr, hw, hk⟩ := pollLoop_temp_counts (c10Args n) (c10Dev val) tEnabledState
      (AcceleratorService.init microbitGatt) (ButtonsService.init microbitGatt) tempChar
      rfl rfl rfl rfl (fun i => hval i tempChar.uuid)
      ((c10Args n).count - 1).toNat 1 0 rfl
  rw [hL] at hr hw hk
  dsimp only at hr hw hk
  have htp : tryPoll (c10Args n) (c10Dev val) =
      ([Event.print "Enabling selected sensors..."] ++
       [Event.enableCall TemperatureService.svcUUID] ++ [] ++ [] ++ evL, rL) := by
    unfold tryPoll
    rw [show enableTemperature (c10Args n)
        (TemperatureService.init (c10Dev val).gatt) =
        ([Event.enableCall TemperatureService.svcUUID], Except.ok tEnabledState) from rfl]
    dsimp only
    rw [show enableAccelerator (c10Args n)
        (AcceleratorService.init (c10Dev val).gatt) =
        ([], Except.ok (AcceleratorService.init microbitGatt)) from rfl]
    dsimp only
    rw [show enableButtons (c10Args n)
        (ButtonsService.init (c10Dev val).gatt) =
        ([], Except.ok (ButtonsService.init microbitGatt)) from rfl]
    dsimp only
    rw [hL]
  have hflow : mainFlow (c10Args n) (c10Dev val) =
      ([Event.print ("Connecting to " ++ "mb"), Event.connect,
        Event.print "Setting security"] ++ [Event.setSecurity "low"] ++
       ([Event.print "Enabling selected sensors..."] ++
        [Event.enableCall TemperatureService.svcUUID] ++ [] ++ [] ++ evL) ++
       [Event.disconnect],
       match rL with
       | Except.ok _ => Outcome.exitOk
       | Except.error e => Outcome.raised e) := by
    show pollFlow (c10Args n) (c10Dev val) = _
    unfold pollFlow
    rw [show securityLevel (c10Args n).security = some "low" from rfl]
    dsimp only
    simp only [htp]
    dsimp only [c10Args]
    cases rL <;> rfl
  rw [hflow]
  dsimp only
  simp only [List.countP_append, List.count_append, List.countP_cons, List.count_cons,
    List.countP_nil, List.count_nil, isReadEvent, hr, hw]
  simp only [c10Args] at hr hw ⊢
  constructor
  · simp [isReadEvent, hr]
    omega
  · simp [hw]
    omega

/-- Witness for C10 at `-n 3` with constant successful reads: three loop
bodies, two waits. -/
theorem C10_loop_iteration_counts_witness :
    (mainFlow (c10Args 3) (c10Dev (fun _ _ => Except.ok [20]))).1.countP isReadEvent =
      (max 1 (3 : Int)).toNat ∧
    (mainFlow (c10Args 3) (c10Dev (fun _ _ => Except.ok [20]))).1.count Event.wait =
      (max 1 (3 : Int)).toNat - 1 :=
  C10_loop_iteration_counts 3 (fun _ _ => Except.ok [20]) (fun _ _ => ⟨20, rfl⟩)
